import Mathlib

/-!
# SOLIDPrinciples: Liskov substitution and single responsibility examples

A shallow embedding of `03LiskovSubstitution/main.cpp` (both the `BAD_CODE`
and the good variant of the `InertialMeasurementUnit` hierarchy) and of the good
variant of `01SingleResponsability/main.cpp`.

The C++ type `double` is embedded exactly: the only operations the code performs
on doubles are the comparisons `>=` and `<=`, assignment, and the widening of
`float` literals, all of which are exact in IEEE-754.  A double is a NaN, an
infinity, or a signed dyadic number `mant * 2 ^ exp`.
-/

/-- A C++ `double`: NaN, a signed infinity, or the finite value
`(-1) ^ neg * mant * 2 ^ exp`. -/
inductive Double where
  | nan : Double
  | inf (neg : Bool) : Double
  | fin (neg : Bool) (mant : ℕ) (exp : ℤ) : Double
  deriving DecidableEq, Repr

namespace Double

/-- The rational value of a finite significand/exponent pair. -/
def value (neg : Bool) (mant : ℕ) (exp : ℤ) : ℚ :=
  (if neg then -1 else 1) * (mant : ℚ) * (2 : ℚ) ^ exp

/-- The finite values that fit the binary64 format (53-bit significand,
exponent of the last place between -1074 and 971). -/
def IsBinary64 : Double → Prop
  | fin _ m e => m < 2 ^ 53 ∧ -1074 ≤ e ∧ e ≤ 971
  | _ => True

instance : DecidablePred IsBinary64 := fun d => by
  cases d <;> unfold IsBinary64 <;> infer_instance

/-- The C++ operator `a <= b` on doubles: false when either side is NaN,
otherwise the order of the extended real line. -/
def le : Double → Double → Bool
  | nan, _ => false
  | _, nan => false
  | inf true, _ => true
  | _, inf false => true
  | inf false, _ => false
  | _, inf true => false
  | fin s m e, fin s' m' e' => decide (value s m e ≤ value s' m' e')

/-- The C++ operator `a >= b` on doubles. -/
def ge (a b : Double) : Bool := le b a

/-- The double is finite and its value lies in the closed interval `[lo, hi]`
of the number line. -/
def InInterval (lo hi : ℚ) : Double → Prop
  | fin s m e => lo ≤ value s m e ∧ value s m e ≤ hi
  | _ => False

/-- The significand `m` with exponent `e` is the value of precision `prec`
nearest to the decimal `q` (strictly closer than half a unit in the last place,
so the nearest value is unique and no tie rule is involved). -/
def IsNearest (prec : ℕ) (q : ℚ) (m : ℕ) (e : ℤ) : Prop :=
  2 ^ (prec - 1) ≤ m ∧ m < 2 ^ prec ∧ |q - (m : ℚ) * (2 : ℚ) ^ e| < (2 : ℚ) ^ e / 2

end Double

/-! ## Literals of the source -/

/-- The literal `.5f` widened to `double`: exactly one half. -/
def lit_0_5f : Double := .fin false 1 (-1)

/-- The literal `10.0f` widened to `double`: exactly ten. -/
def lit_10_0f : Double := .fin false 5 1

/-- The literal `.1f` widened to `double`: the binary32 value nearest to one
tenth, `13421773 * 2 ^ (-27) = 0.100000001490116119384765625`. -/
def lit_0_1f : Double := .fin false 13421773 (-27)

/-- The literal `100.0f` widened to `double`: exactly one hundred. -/
def lit_100_0f : Double := .fin false 25 2

/-- The `int` literal `500` converted to `double` (the argument in `main`). -/
def lit_500 : Double := .fin false 125 2

/-- The `double` literal `0.5`. -/
def lit_0_5 : Double := .fin false 1 (-1)

/-- The `double` literal `10.0`. -/
def lit_10_0 : Double := .fin false 5 1

/-- The `double` literal `0.4`: the binary64 value nearest to four tenths. -/
def lit_0_4 : Double := .fin false 7205759403792794 (-54)

/-- The `double` literal `10.1`: the binary64 value nearest to 10.1. -/
def lit_10_1 : Double := .fin false 5685794529555251 (-49)

/-- The `double` literal `0.1`: the binary64 value nearest to one tenth,
`7205759403792794 * 2 ^ (-56) = 0.1000000000000000055511151231257827...`. -/
def lit_0_1 : Double := .fin false 7205759403792794 (-56)

/-- The `double` literal `100.0`. -/
def lit_100_0 : Double := .fin false 25 2

/-- The `double` literal `0.09`: the binary64 value nearest to nine hundredths. -/
def lit_0_09 : Double := .fin false 6485183463413514 (-56)

/-- The `double` literal `1.0`. -/
def lit_1_0 : Double := .fin false 1 0

/-! ## 03LiskovSubstitution: the good variant -/

/-- The state of an `InertialMeasurementUnit` object: the protected member
`double frequency`, which no constructor initialises (`none` is the unset,
indeterminate member of a freshly constructed object). -/
structure InertialMeasurementUnit where
  frequency : Option Double
  deriving DecidableEq, Repr

/-- How a call of the good `void setFrequency(double)` ends: it returns, or it
throws `std::out_of_range` constructed with the message `what`. -/
inductive SetResult where
  | returned : SetResult
  | out_of_range (what : String) : SetResult
  deriving DecidableEq, Repr

/-- A freshly constructed device (`new Gyroscope`): the frequency is unset. -/
def InertialMeasurementUnit.fresh : InertialMeasurementUnit := ⟨none⟩

namespace Gyroscope

/-- `static constexpr double min = .5f`. -/
def min : Double := lit_0_5f

/-- `static constexpr double max = 10.0f`. -/
def max : Double := lit_10_0f

/-- `void Gyroscope::setFrequency(double frequency)`: the outcome of the call
and the object after it. -/
def setFrequency (self : InertialMeasurementUnit) (frequency : Double) :
    SetResult × InertialMeasurementUnit :=
  if Double.ge frequency min && Double.le frequency max then
    (.returned, { self with frequency := some frequency })
  else
    (.out_of_range "frequency out of range [0.5, 10]", self)

/-- `int Gyroscope::getOrientation() const`. -/
def getOrientation (_self : InertialMeasurementUnit) : ℤ := 36

/-- `std::pair<double, double> Gyroscope::getFrequencyRange() const`. -/
def getFrequencyRange (_self : InertialMeasurementUnit) : Double × Double :=
  (max, min)

end Gyroscope

namespace Accelerometer

/-- `const double Accelerometer::min = .1f`. -/
def min : Double := lit_0_1f

/-- `const double Accelerometer::max = 100.0f`. -/
def max : Double := lit_100_0f

/-- `void Accelerometer::setFrequency(double frequency)`: the outcome of the
call and the object after it. -/
def setFrequency (self : InertialMeasurementUnit) (frequency : Double) :
    SetResult × InertialMeasurementUnit :=
  if Double.ge frequency min && Double.le frequency max then
    (.returned, { self with frequency := some frequency })
  else
    (.out_of_range "frequency out of range [0.1, 100]", self)

/-- `int Accelerometer::getOrientation() const`. -/
def getOrientation (_self : InertialMeasurementUnit) : ℤ := 36

/-- `std::pair<double, double> Accelerometer::getFrequencyRange() const`. -/
def getFrequencyRange (_self : InertialMeasurementUnit) : Double × Double :=
  (max, min)

end Accelerometer

/-- The concrete class behind an `InertialMeasurementUnit *`. -/
inductive Variant where
  | gyroscope : Variant
  | accelerometer : Variant
  deriving DecidableEq, Repr

namespace Variant

/-- The virtual call `imu->setFrequency(frequency)`. -/
def setFrequency : Variant → InertialMeasurementUnit → Double →
    SetResult × InertialMeasurementUnit
  | gyroscope => Gyroscope.setFrequency
  | accelerometer => Accelerometer.setFrequency

/-- The virtual call `imu->getOrientation()`. -/
def getOrientation : Variant → InertialMeasurementUnit → ℤ
  | gyroscope => Gyroscope.getOrientation
  | accelerometer => Accelerometer.getOrientation

/-- The virtual call `imu->getFrequencyRange()`. -/
def getFrequencyRange : Variant → InertialMeasurementUnit → Double × Double
  | gyroscope => Gyroscope.getFrequencyRange
  | accelerometer => Accelerometer.getFrequencyRange

/-- The message of the `std::out_of_range` thrown by the class. -/
def what : Variant → String
  | gyroscope => "frequency out of range [0.5, 10]"
  | accelerometer => "frequency out of range [0.1, 100]"

/-- The lower end of the valid range written in the class comment
(`//valid range [0.5, 10]`, `//valid range [0.1, 100]`). -/
def lo : Variant → ℚ
  | gyroscope => 1 / 2
  | accelerometer => 1 / 10

/-- The upper end of the valid range written in the class comment. -/
def hi : Variant → ℚ
  | gyroscope => 10
  | accelerometer => 100

end Variant

/-- A call of one of the three public member functions. -/
inductive Call where
  | setFrequency (frequency : Double) : Call
  | getOrientation : Call
  | getFrequencyRange : Call
  deriving DecidableEq, Repr

/-- What a member call hands back to the caller. -/
inductive Reply where
  | unit : Reply
  | thrown (what : String) : Reply
  | int (n : ℤ) : Reply
  | pair (p : Double × Double) : Reply
  deriving DecidableEq, Repr

/-- One member call on a device: the reply and the object afterwards.  The two
getters are `const` member functions, so the object is handed on as it is. -/
def Variant.call (v : Variant) (self : InertialMeasurementUnit) :
    Call → Reply × InertialMeasurementUnit
  | .setFrequency f =>
    match v.setFrequency self f with
    | (.returned, self') => (.unit, self')
    | (.out_of_range w, self') => (.thrown w, self')
  | .getOrientation => (.int (v.getOrientation self), self)
  | .getFrequencyRange => (.pair (v.getFrequencyRange self), self)

/-- A sequence of member calls, each one in its own `try`/`catch`: the object
after the last call. -/
def Variant.run (v : Variant) (self : InertialMeasurementUnit) (cs : List Call) :
    InertialMeasurementUnit :=
  cs.foldl (fun s c => (v.call s c).2) self

/-- A sequence of `setFrequency` calls, each one in its own `try`/`catch`: the
object after the last call. -/
def Variant.setAll (v : Variant) (self : InertialMeasurementUnit) (fs : List Double) :
    InertialMeasurementUnit :=
  fs.foldl (fun s f => (v.setFrequency s f).2) self

/-- An item streamed to `std::cout`. -/
inductive OutItem where
  | str (s : String) : OutItem
  | dbl (d : Double) : OutItem
  | endl : OutItem
  deriving DecidableEq, Repr

/-- The good-variant `main` of `03LiskovSubstitution`: the items streamed to
`std::cout` in order, and the exit status. -/
def Liskov.main : List OutItem × ℤ :=
  let imu := InertialMeasurementUnit.fresh
  let (r, imu) := Variant.gyroscope.setFrequency imu lit_500
  let out₁ : List OutItem :=
    match r with
    | .returned => []
    | .out_of_range w => [.str w, .endl]
  let ello := Variant.gyroscope.getFrequencyRange imu
  (out₁ ++ [.str "max: ", .dbl ello.2, .str " min: ", .dbl ello.1, .endl], 0)

/-! ## 03LiskovSubstitution: the `BAD_CODE` variant -/

namespace Bad

namespace Gyroscope

/-- `double const Gyroscope::min = .5f`. -/
def min : Double := lit_0_5f

/-- `double const Gyroscope::max = 10.0f`. -/
def max : Double := lit_10_0f

/-- `bool Gyroscope::setFrequency(double frequency)` of the `BAD_CODE` variant:
the returned flag and the object after the call. -/
def setFrequency (self : InertialMeasurementUnit) (frequency : Double) :
    Bool × InertialMeasurementUnit :=
  if Double.ge frequency min && Double.le frequency max then
    (true, { self with frequency := some frequency })
  else
    (false, self)

end Gyroscope

namespace Accelerometer

/-- `static constexpr double min = .1f`. -/
def min : Double := lit_0_1f

/-- `static constexpr double max = 100.0f`. -/
def max : Double := lit_100_0f

/-- `bool Accelerometer::setFrequency(double frequency)` of the `BAD_CODE`
variant: the returned flag and the object after the call. -/
def setFrequency (self : InertialMeasurementUnit) (frequency : Double) :
    Bool × InertialMeasurementUnit :=
  if Double.ge frequency min && Double.le frequency max then
    (true, { self with frequency := some frequency })
  else
    (false, self)

end Accelerometer

/-- The virtual call `imu->setFrequency(frequency)` of the `BAD_CODE` variant. -/
def setFrequency : Variant → InertialMeasurementUnit → Double →
    Bool × InertialMeasurementUnit
  | .gyroscope => Gyroscope.setFrequency
  | .accelerometer => Accelerometer.setFrequency

end Bad

/-! ## 01SingleResponsability: the good variant -/

/-- A `std::string`: the sequence of its `char` elements. -/
abbrev CppString := List Char

/-- The test `s.rfind(p, 0) != std::string::npos`: searching backwards from
position 0 finds `p` only at position 0, so it holds exactly when `s` begins
with `p`. -/
def CppString.rfind0 (s p : CppString) : Bool := p.isPrefixOf s

/-- `struct Database`: the vector `table_users`. -/
structure Database where
  table_users : List CppString
  deriving DecidableEq, Repr

/-- `Database &Database::operator<<(const std::string &query)`: the database
after the call. -/
def Database.shl (db : Database) (query : CppString) : Database :=
  if !(CppString.rfind0 query "INSERT".toList)
      && !(CppString.rfind0 query "SELECT".toList)
      && !(CppString.rfind0 query "UPDATE".toList) then
    { db with table_users := db.table_users ++ [query] }
  else
    db

/-- `Database &Database::operator>>(std::function<void(std::string &)> lambda)`:
the lambda is called on a copy of every row in order; `captured` is the state
the lambda captures by reference.  The database after the call and the captured
state after the last call. -/
def Database.shr {σ : Type} (db : Database) (lambda : σ → CppString → σ) (captured : σ) :
    Database × σ :=
  (db, db.table_users.foldl lambda captured)

/-- `const std::string kPrefix = "user-"`. -/
def kPrefix : CppString := "user-".toList

namespace UsernameFormater

/-- `std::string UsernameFormater::format(std::string username)`. -/
def format (username : CppString) : CppString :=
  if !(CppString.rfind0 username kPrefix) then
    kPrefix ++ username
  else
    username

/-- `std::string UsernameFormater::getReadableName(std::string input)`:
`input.erase(0, kPrefix.length())` removes the first `kPrefix.length()`
characters, or all of them when there are fewer. -/
def getReadableName (input : CppString) : CppString :=
  input.drop kPrefix.length

end UsernameFormater

namespace UserModel

/-- `void UserModel::addUser(std::string usarname)`: the database referenced by
the model after the call. -/
def addUser (db : Database) (usarname : CppString) : Database :=
  (db.shl "INSERT INTO USERS (name) VALUES (?);".toList).shl
    (UsernameFormater.format usarname)

/-- `std::vector<std::string> UserModel::getAllUsers()`: the returned vector and
the database referenced by the model after the call. -/
def getAllUsers (db : Database) : List CppString × Database :=
  let r := (db.shl "SELECT name FROM users".toList).shr
    (fun (users : List CppString) user => users ++ [UsernameFormater.getReadableName user]) []
  (r.2, r.1)

end UserModel

namespace UserManager

/-- `void UserManager::createUser(std::string username)`. -/
def createUser (db : Database) (username : CppString) : Database :=
  UserModel.addUser db username

/-- `std::vector<std::string> UserManager::getUsersReport()`. -/
def getUsersReport (db : Database) : List CppString × Database :=
  UserModel.getAllUsers db

/-- The calls `createUser(u)` for every `u` of a list, in order. -/
def createAll (db : Database) (us : List CppString) : Database :=
  us.foldl createUser db

end UserManager

/-- The `main` of `01SingleResponsability`: the characters written to
`std::cout` and the exit status. -/
def SingleResponsability.main : CppString × ℤ :=
  let db : Database := ⟨[]⟩
  let db := UserManager.createUser db "user1".toList
  let db := UserManager.createUser db "user-user2".toList
  let out := "printing:".toList ++ ['\n']
  let report := UserManager.getUsersReport db
  (report.1.foldl (fun out user => out ++ user ++ ['\n']) out, 0)

/-- The stored frequency is unset or a finite value of the class interval. -/
def Variant.Valid (v : Variant) (s : InertialMeasurementUnit) : Prop :=
  s.frequency = none ∨ ∃ d, s.frequency = some d ∧ Double.InInterval v.lo v.hi d

/-! ## Lemmas on doubles -/

theorem Double.value_nonneg_eq (m : ℕ) (e : ℤ) :
    Double.value false m e = (m : ℚ) * (2 : ℚ) ^ e := by
  simp [Double.value]

/-- The binary32 value nearest to one tenth is `13421773 * 2 ^ (-27)`. -/
theorem lit_0_1f_nearest : Double.IsNearest 24 (1 / 10) 13421773 (-27) := by
  refine ⟨by norm_num, by norm_num, ?_⟩
  rw [abs_lt]
  constructor <;> norm_num

/-- The binary64 value nearest to one tenth is `7205759403792794 * 2 ^ (-56)`. -/
theorem lit_0_1_nearest : Double.IsNearest 53 (1 / 10) 7205759403792794 (-56) := by
  refine ⟨by norm_num, by norm_num, ?_⟩
  rw [abs_lt]
  constructor <;> norm_num

/-- The binary64 value nearest to four tenths is `7205759403792794 * 2 ^ (-54)`. -/
theorem lit_0_4_nearest : Double.IsNearest 53 (4 / 10) 7205759403792794 (-54) := by
  refine ⟨by norm_num, by norm_num, ?_⟩
  rw [abs_lt]
  constructor <;> norm_num

/-- The binary64 value nearest to nine hundredths is `6485183463413514 * 2 ^ (-56)`. -/
theorem lit_0_09_nearest : Double.IsNearest 53 (9 / 100) 6485183463413514 (-56) := by
  refine ⟨by norm_num, by norm_num, ?_⟩
  rw [abs_lt]
  constructor <;> norm_num

/-- The binary64 value nearest to 10.1 is `5685794529555251 * 2 ^ (-49)`. -/
theorem lit_10_1_nearest : Double.IsNearest 53 (101 / 10) 5685794529555251 (-49) := by
  refine ⟨by norm_num, by norm_num, ?_⟩
  rw [abs_lt]
  constructor <;> norm_num

/-- The test `frequency >= lo && frequency <= hi` against finite bounds holds
exactly for the finite doubles whose value lies between the bounds. -/
theorem Double.range_check_iff (f : Double) (m₁ : ℕ) (e₁ : ℤ) (m₂ : ℕ) (e₂ : ℤ) :
    (Double.ge f (.fin false m₁ e₁) && Double.le f (.fin false m₂ e₂)) = true ↔
      Double.InInterval (Double.value false m₁ e₁) (Double.value false m₂ e₂) f := by
  cases f with
  | nan => simp [Double.ge, Double.le, Double.InInterval]
  | inf s => cases s <;> simp [Double.ge, Double.le, Double.InInterval]
  | fin s m e => simp [Double.ge, Double.le, Double.InInterval]

theorem Double.value_lit_0_1f : Double.value false 13421773 (-27) = 13421773 / 134217728 := by
  rw [Double.value_nonneg_eq]; norm_num

/-- The range test of `Gyroscope::setFrequency` holds exactly on `[1/2, 10]`. -/
theorem gyroscope_check_iff (f : Double) :
    (Double.ge f Gyroscope.min && Double.le f Gyroscope.max) = true ↔
      Double.InInterval (1 / 2) 10 f := by
  have h := Double.range_check_iff f 1 (-1) 5 1
  have h₁ : Double.value false 1 (-1) = 1 / 2 := by
    rw [Double.value_nonneg_eq]; norm_num
  have h₂ : Double.value false 5 1 = 10 := by
    rw [Double.value_nonneg_eq]; norm_num
  rw [h₁, h₂] at h
  exact h

/-- The range test of `Accelerometer::setFrequency` holds exactly on
`[13421773 / 2 ^ 27, 100]`: the lower bound is the binary32 neighbour of one
tenth, not one tenth. -/
theorem accelerometer_check_iff (f : Double) :
    (Double.ge f Accelerometer.min && Double.le f Accelerometer.max) = true ↔
      Double.InInterval (13421773 / 134217728) 100 f := by
  have h := Double.range_check_iff f 13421773 (-27) 25 2
  have h₂ : Double.value false 25 2 = 100 := by
    rw [Double.value_nonneg_eq]; norm_num
  rw [Double.value_lit_0_1f, h₂] at h
  exact h

theorem Double.InInterval.mono {lo lo' hi hi' : ℚ} (h₁ : lo' ≤ lo) (h₂ : hi ≤ hi')
    {f : Double} (h : Double.InInterval lo hi f) : Double.InInterval lo' hi' f := by
  cases f with
  | nan => exact h
  | inf s => exact h
  | fin s m e => exact ⟨le_trans h₁ h.1, le_trans h.2 h₂⟩

theorem gyroscope_setFrequency_of_in (s : InertialMeasurementUnit) (f : Double)
    (h : Double.InInterval (1 / 2) 10 f) :
    Gyroscope.setFrequency s f = (.returned, ⟨some f⟩) := by
  unfold Gyroscope.setFrequency
  rw [if_pos ((gyroscope_check_iff f).2 h)]

theorem gyroscope_setFrequency_of_not_in (s : InertialMeasurementUnit) (f : Double)
    (h : ¬ Double.InInterval (1 / 2) 10 f) :
    Gyroscope.setFrequency s f = (.out_of_range "frequency out of range [0.5, 10]", s) := by
  unfold Gyroscope.setFrequency
  rw [if_neg (fun hc => h ((gyroscope_check_iff f).1 hc))]

theorem accelerometer_setFrequency_of_in (s : InertialMeasurementUnit) (f : Double)
    (h : Double.InInterval (13421773 / 134217728) 100 f) :
    Accelerometer.setFrequency s f = (.returned, ⟨some f⟩) := by
  unfold Accelerometer.setFrequency
  rw [if_pos ((accelerometer_check_iff f).2 h)]

theorem accelerometer_setFrequency_of_not_in (s : InertialMeasurementUnit) (f : Double)
    (h : ¬ Double.InInterval (13421773 / 134217728) 100 f) :
    Accelerometer.setFrequency s f =
      (.out_of_range "frequency out of range [0.1, 100]", s) := by
  unfold Accelerometer.setFrequency
  rw [if_neg (fun hc => h ((accelerometer_check_iff f).1 hc))]

/-- What `Accelerometer::setFrequency` does on every input: it returns exactly
on the finite doubles of `[13421773 / 2 ^ 27, 100]`. -/
theorem accelerometer_setFrequency_returned_iff (s : InertialMeasurementUnit) (f : Double) :
    (Accelerometer.setFrequency s f).1 = .returned ↔
      Double.InInterval (13421773 / 134217728) 100 f := by
  by_cases h : Double.InInterval (13421773 / 134217728) 100 f
  · simp [accelerometer_setFrequency_of_in s f h, h]
  · simp [accelerometer_setFrequency_of_not_in s f h, h]

theorem gyroscope_setFrequency_returned_iff (s : InertialMeasurementUnit) (f : Double) :
    (Gyroscope.setFrequency s f).1 = .returned ↔ Double.InInterval (1 / 2) 10 f := by
  by_cases h : Double.InInterval (1 / 2) 10 f
  · rw [gyroscope_setFrequency_of_in s f h]
    exact iff_of_true rfl h
  · rw [gyroscope_setFrequency_of_not_in s f h]
    exact iff_of_false (fun hc => SetResult.noConfusion hc) h

theorem lit_0_5_in : Double.InInterval (1 / 2) 10 lit_0_5 := by
  simp only [lit_0_5, Double.InInterval, Double.value_nonneg_eq]; norm_num

theorem lit_10_0_in : Double.InInterval (1 / 2) 10 lit_10_0 := by
  simp only [lit_10_0, Double.InInterval, Double.value_nonneg_eq]; norm_num

theorem lit_1_0_in : Double.InInterval (1 / 2) 10 lit_1_0 := by
  simp only [lit_1_0, Double.InInterval, Double.value_nonneg_eq]; norm_num

theorem lit_0_4_not_in : ¬ Double.InInterval (1 / 2) 10 lit_0_4 := by
  simp only [lit_0_4, Double.InInterval, Double.value_nonneg_eq]; norm_num

theorem lit_10_1_not_in : ¬ Double.InInterval (1 / 2) 10 lit_10_1 := by
  simp only [lit_10_1, Double.InInterval, Double.value_nonneg_eq]; norm_num

theorem lit_500_not_in_gyroscope : ¬ Double.InInterval (1 / 2) 10 lit_500 := by
  simp only [lit_500, Double.InInterval, Double.value_nonneg_eq]; norm_num

theorem lit_500_not_in_accelerometer :
    ¬ Double.InInterval (13421773 / 134217728) 100 lit_500 := by
  simp only [lit_500, Double.InInterval, Double.value_nonneg_eq]; norm_num

/-- The double `0.1` is below `.1f`, the lower bound the Accelerometer tests. -/
theorem lit_0_1_not_in : ¬ Double.InInterval (13421773 / 134217728) 100 lit_0_1 := by
  simp only [lit_0_1, Double.InInterval, Double.value_nonneg_eq]; norm_num

theorem lit_0_1_in_nominal : Double.InInterval (1 / 10) 100 lit_0_1 := by
  simp only [lit_0_1, Double.InInterval, Double.value_nonneg_eq]; norm_num

theorem lit_100_0_in : Double.InInterval (13421773 / 134217728) 100 lit_100_0 := by
  simp only [lit_100_0, Double.InInterval, Double.value_nonneg_eq]; norm_num

theorem lit_0_09_not_in : ¬ Double.InInterval (13421773 / 134217728) 100 lit_0_09 := by
  simp only [lit_0_09, Double.InInterval, Double.value_nonneg_eq]; norm_num

/-! ## Claims on the frequency setter -/

/-- C3: for the good Gyroscope, every object state and every double `f`,
`setFrequency(f)` returns exactly when `f` is a finite value of the closed
interval `[0.5, 10]`; on every other input, NaN and the infinities included, it
throws `std::out_of_range`.  The doubles `0.5` and `10.0` are accepted, `0.4`
and `10.1` are rejected. -/
theorem Gyroscope.setFrequency_succeeds_iff (s : InertialMeasurementUnit) (f : Double) :
    ((Gyroscope.setFrequency s f).1 = .returned ↔ Double.InInterval (1 / 2) 10 f) ∧
    ((∃ w, (Gyroscope.setFrequency s f).1 = .out_of_range w) ↔
      ¬ Double.InInterval (1 / 2) 10 f) ∧
    (∃ w, (Gyroscope.setFrequency s .nan).1 = .out_of_range w) ∧
    (Gyroscope.setFrequency s lit_0_5).1 = .returned ∧
    (Gyroscope.setFrequency s lit_10_0).1 = .returned ∧
    (∃ w, (Gyroscope.setFrequency s lit_0_4).1 = .out_of_range w) ∧
    (∃ w, (Gyroscope.setFrequency s lit_10_1).1 = .out_of_range w) := by
  refine ⟨gyroscope_setFrequency_returned_iff s f, ?_, ?_, ?_, ?_, ?_, ?_⟩
  · by_cases h : Double.InInterval (1 / 2) 10 f
    · rw [gyroscope_setFrequency_of_in s f h]
      exact iff_of_false (fun ⟨_, hw⟩ => SetResult.noConfusion hw) (fun hn => hn h)
    · rw [gyroscope_setFrequency_of_not_in s f h]
      exact iff_of_true ⟨_, rfl⟩ h
  · exact ⟨_, congrArg Prod.fst (gyroscope_setFrequency_of_not_in s .nan (fun h => h))⟩
  · rw [gyroscope_setFrequency_of_in s _ lit_0_5_in]
  · rw [gyroscope_setFrequency_of_in s _ lit_10_0_in]
  · exact ⟨_, congrArg Prod.fst (gyroscope_setFrequency_of_not_in s _ lit_0_4_not_in)⟩
  · exact ⟨_, congrArg Prod.fst (gyroscope_setFrequency_of_not_in s _ lit_10_1_not_in)⟩

/-- C1: the good Accelerometer rejects the double `0.1`.  The double nearest to
one tenth is a binary64 value of the documented range `[0.1, 100]`, yet
`setFrequency(0.1)` throws `std::out_of_range` and leaves the object as it was,
because the lower bound compared against is `.1f`, the binary32 neighbour of one
tenth, which is larger.  The other three sample calls behave as documented:
`100.0` is accepted, `0.09` and `500` are rejected. -/
theorem Accelerometer.setFrequency_lit_0_1_throws (s : InertialMeasurementUnit) :
    Double.IsBinary64 lit_0_1 ∧ Double.InInterval (1 / 10) 100 lit_0_1 ∧
    Accelerometer.setFrequency s lit_0_1 =
      (.out_of_range "frequency out of range [0.1, 100]", s) ∧
    (Accelerometer.setFrequency s lit_100_0).1 = .returned ∧
    (Accelerometer.setFrequency s lit_0_09).1 =
      .out_of_range "frequency out of range [0.1, 100]" ∧
    (Accelerometer.setFrequency s lit_500).1 =
      .out_of_range "frequency out of range [0.1, 100]" := by
  refine ⟨by decide, lit_0_1_in_nominal,
    accelerometer_setFrequency_of_not_in s _ lit_0_1_not_in, ?_, ?_, ?_⟩
  · rw [accelerometer_setFrequency_of_in s _ lit_100_0_in]
  · rw [accelerometer_setFrequency_of_not_in s _ lit_0_09_not_in]
  · rw [accelerometer_setFrequency_of_not_in s _ lit_500_not_in_accelerometer]

/-- The output of the good-variant `main`. -/
theorem Liskov.main_eq : Liskov.main =
    ([.str "frequency out of range [0.5, 10]", .endl,
      .str "max: ", .dbl Gyroscope.min, .str " min: ", .dbl Gyroscope.max, .endl], 0) := by
  unfold Liskov.main
  simp only [Variant.setFrequency,
    gyroscope_setFrequency_of_not_in _ _ lit_500_not_in_gyroscope]
  rfl

theorem Variant.getFrequencyRange_const (v : Variant) (s t : InertialMeasurementUnit) :
    v.getFrequencyRange s = v.getFrequencyRange t := by
  cases v <;> rfl

/-- C2: `getFrequencyRange()` returns the pair `(max, min)`: the first component
is the maximum (10 for Gyroscope, 100 for Accelerometer) and the second the
minimum (0.5 for Gyroscope, `.1f` for Accelerometer), the reverse of the
documented `<minimum, maximum>`; `main`, which reads `second` as the maximum,
prints `max: ` followed by 0.5 and ` min: ` followed by 10.  The pair is the
same after any sequence of member calls. -/
theorem Variant.getFrequencyRange_is_max_min (s : InertialMeasurementUnit) (cs : List Call) :
    Gyroscope.getFrequencyRange s = (Gyroscope.max, Gyroscope.min) ∧
    Gyroscope.getFrequencyRange s = (lit_10_0, lit_0_5) ∧
    Gyroscope.getFrequencyRange s ≠ (Gyroscope.min, Gyroscope.max) ∧
    Accelerometer.getFrequencyRange s = (Accelerometer.max, Accelerometer.min) ∧
    Accelerometer.getFrequencyRange s = (lit_100_0, lit_0_1f) ∧
    Accelerometer.getFrequencyRange s ≠ (Accelerometer.min, Accelerometer.max) ∧
    (Liskov.main.1.drop 2 =
      [.str "max: ", .dbl lit_0_5, .str " min: ", .dbl lit_10_0, .endl]) ∧
    (∀ v : Variant, v.getFrequencyRange (v.run s cs) = v.getFrequencyRange s) := by
  have hg : Gyroscope.max ≠ Gyroscope.min := by decide
  have ha : Accelerometer.max ≠ Accelerometer.min := by decide
  refine ⟨rfl, rfl, fun h => hg (congrArg Prod.fst h), rfl, rfl,
    fun h => ha (congrArg Prod.fst h), ?_, ?_⟩
  · rw [Liskov.main_eq]; rfl
  · intro v
    exact Variant.getFrequencyRange_const v _ _

/-- C4: the pair obtained from `getFrequencyRange()` does not describe the inputs
the setter accepts when its first component is read as the lower and its second
as the upper bound: no double `f` satisfies `lo <= f && f <= hi` for either
class, while `setFrequency(1.0)` on a Gyroscope returns normally. -/
theorem Variant.getFrequencyRange_bounds_reject_all (v : Variant)
    (s : InertialMeasurementUnit) (f : Double) :
    (Double.le (v.getFrequencyRange s).1 f && Double.le f (v.getFrequencyRange s).2) = false ∧
    (Variant.gyroscope.setFrequency s lit_1_0).1 = .returned ∧
    (Double.le (Variant.gyroscope.getFrequencyRange s).1 lit_1_0 &&
      Double.le lit_1_0 (Variant.gyroscope.getFrequencyRange s).2) = false := by
  have key : ∀ (w : Variant) (g : Double),
      (Double.le (w.getFrequencyRange s).1 g && Double.le g (w.getFrequencyRange s).2)
        = false := by
    intro w g
    rw [Bool.and_eq_false_iff, Bool.eq_false_iff, Bool.eq_false_iff, ← not_and_or]
    rintro ⟨h₁, h₂⟩
    cases w
    · cases g with
      | nan => simp [Double.le] at h₂
      | inf b =>
        cases b <;>
          simp [Variant.getFrequencyRange, Gyroscope.getFrequencyRange, Gyroscope.max,
            Gyroscope.min, lit_10_0f, lit_0_5f, Double.le] at h₁ h₂
      | fin b m e =>
        simp only [Variant.getFrequencyRange, Gyroscope.getFrequencyRange, Gyroscope.max,
          Gyroscope.min, lit_10_0f, lit_0_5f, Double.le, decide_eq_true_eq,
          Double.value_nonneg_eq] at h₁ h₂
        have := le_trans h₁ h₂
        norm_num at this
    · cases g with
      | nan => simp [Double.le] at h₂
      | inf b =>
        cases b <;>
          simp [Variant.getFrequencyRange, Accelerometer.getFrequencyRange, Accelerometer.max,
            Accelerometer.min, lit_100_0f, lit_0_1f, Double.le] at h₁ h₂
      | fin b m e =>
        simp only [Variant.getFrequencyRange, Accelerometer.getFrequencyRange,
          Accelerometer.max, Accelerometer.min, lit_100_0f, lit_0_1f, Double.le,
          decide_eq_true_eq, Double.value_nonneg_eq] at h₁ h₂
        have := le_trans h₁ h₂
        norm_num at this
  refine ⟨key v f, ?_, key .gyroscope lit_1_0⟩
  show (Gyroscope.setFrequency s lit_1_0).1 = .returned
  rw [gyroscope_setFrequency_of_in s _ lit_1_0_in]

/-- Every call of the good setter either returns and stores its argument, which
then lies in the interval the code tests, or throws the class message and
leaves the object as it was. -/
theorem Variant.setFrequency_cases (v : Variant) (s : InertialMeasurementUnit) (f : Double) :
    (v.setFrequency s f = (.returned, ⟨some f⟩) ∧ Double.InInterval v.lo v.hi f) ∨
    (v.setFrequency s f = (.out_of_range v.what, s)) := by
  cases v
  · by_cases h : Double.InInterval (1 / 2) 10 f
    · exact Or.inl ⟨gyroscope_setFrequency_of_in s f h, h⟩
    · exact Or.inr (gyroscope_setFrequency_of_not_in s f h)
  · by_cases h : Double.InInterval (13421773 / 134217728) 100 f
    · exact Or.inl ⟨accelerometer_setFrequency_of_in s f h,
        Double.InInterval.mono (by norm_num [Variant.lo]) le_rfl h⟩
    · exact Or.inr (accelerometer_setFrequency_of_not_in s f h)

/-- C5: for either class, every object state `s` (frequency unset or set) and
every double `f`, if `setFrequency(f)` throws `std::out_of_range` then the
object after the call equals `s`. -/
theorem Variant.setFrequency_failure_atomic (v : Variant) (s : InertialMeasurementUnit)
    (f : Double) (h : ∃ w, (v.setFrequency s f).1 = .out_of_range w) :
    (v.setFrequency s f).2 = s := by
  rcases Variant.setFrequency_cases v s f with ⟨h₁, _⟩ | h₂
  · obtain ⟨w, hw⟩ := h
    rw [h₁] at hw
    exact SetResult.noConfusion hw
  · rw [h₂]

theorem Variant.setFrequency_failure_atomic_witness :
    (∃ w, (Variant.accelerometer.setFrequency ⟨some lit_1_0⟩ lit_500).1 = .out_of_range w) ∧
    (Variant.accelerometer.setFrequency ⟨some lit_1_0⟩ lit_500).2 = ⟨some lit_1_0⟩ ∧
    (Variant.gyroscope.setFrequency ⟨none⟩ lit_0_4).2 = ⟨none⟩ :=
  ⟨⟨_, congrArg Prod.fst
      (accelerometer_setFrequency_of_not_in _ _ lit_500_not_in_accelerometer)⟩,
    Variant.setFrequency_failure_atomic .accelerometer ⟨some lit_1_0⟩ lit_500
      ⟨_, congrArg Prod.fst
        (accelerometer_setFrequency_of_not_in _ _ lit_500_not_in_accelerometer)⟩,
    Variant.setFrequency_failure_atomic .gyroscope ⟨none⟩ lit_0_4
      ⟨_, congrArg Prod.fst (gyroscope_setFrequency_of_not_in _ _ lit_0_4_not_in)⟩⟩

theorem Variant.valid_setFrequency (v : Variant) (s : InertialMeasurementUnit) (f : Double)
    (h : v.Valid s) : v.Valid (v.setFrequency s f).2 := by
  rcases Variant.setFrequency_cases v s f with ⟨h₁, hin⟩ | h₂
  · rw [h₁]
    exact Or.inr ⟨f, rfl, hin⟩
  · rw [h₂]
    exact h

theorem Variant.valid_setAll (v : Variant) (fs : List Double) :
    ∀ s : InertialMeasurementUnit, v.Valid s → v.Valid (v.setAll s fs) := by
  induction fs with
  | nil => intro s h; exact h
  | cons f fs ih =>
    intro s h
    exact ih _ (Variant.valid_setFrequency v s f h)

/-- C6: for either class and every finite sequence `fs` of `setFrequency` calls
on a freshly constructed device, the stored frequency afterwards is unset or a
finite value of the class interval (`[0.5, 10]` for Gyroscope, `[0.1, 100]` for
Accelerometer); and from every state, a `setFrequency(f)` that returns leaves
`f` as the stored frequency. -/
theorem Variant.frequency_invariant (v : Variant) (fs : List Double)
    (s : InertialMeasurementUnit) (f : Double) :
    ((v.setAll .fresh fs).frequency = none ∨
      ∃ d, (v.setAll .fresh fs).frequency = some d ∧
        Double.InInterval (match v with | .gyroscope => 1 / 2 | .accelerometer => 1 / 10)
          (match v with | .gyroscope => 10 | .accelerometer => 100) d) ∧
    ((v.setFrequency s f).1 = .returned → (v.setFrequency s f).2.frequency = some f) := by
  constructor
  · have h := Variant.valid_setAll v fs .fresh (Or.inl rfl)
    cases v <;> exact h
  · intro h
    rcases Variant.setFrequency_cases v s f with ⟨h₁, _⟩ | h₂
    · rw [h₁]
    · rw [h₂] at h
      exact SetResult.noConfusion h

theorem Variant.frequency_invariant_witness :
    ((Variant.gyroscope.setAll .fresh [lit_500, lit_1_0, lit_0_4]).frequency = none ∨
      ∃ d, (Variant.gyroscope.setAll .fresh [lit_500, lit_1_0, lit_0_4]).frequency = some d ∧
        Double.InInterval (1 / 2) 10 d) ∧
    (Variant.gyroscope.setFrequency .fresh lit_1_0).1 = .returned ∧
    (Variant.gyroscope.setFrequency .fresh lit_1_0).2.frequency = some lit_1_0 :=
  ⟨(Variant.frequency_invariant .gyroscope [lit_500, lit_1_0, lit_0_4] .fresh lit_1_0).1,
    congrArg Prod.fst (gyroscope_setFrequency_of_in _ _ lit_1_0_in),
    (Variant.frequency_invariant .gyroscope [lit_500, lit_1_0, lit_0_4] .fresh lit_1_0).2
      (congrArg Prod.fst (gyroscope_setFrequency_of_in _ _ lit_1_0_in))⟩

/-- C7: whenever the good setter throws, for any object state and any argument,
the message of the `std::out_of_range` is exactly
`frequency out of range [0.5, 10]` for Gyroscope and
`frequency out of range [0.1, 100]` for Accelerometer, and every double outside
the class interval makes it throw; `Accelerometer.setFrequency(500)` throws the
`[0.1, 100]` message and the first line printed by `main` is the `[0.5, 10]`
message caught from `Gyroscope.setFrequency(500)`. -/
theorem Variant.out_of_range_message (s : InertialMeasurementUnit) (f : Double) :
    (∀ w, (Gyroscope.setFrequency s f).1 = .out_of_range w →
      w = "frequency out of range [0.5, 10]") ∧
    (∀ w, (Accelerometer.setFrequency s f).1 = .out_of_range w →
      w = "frequency out of range [0.1, 100]") ∧
    (¬ Double.InInterval (1 / 2) 10 f →
      (Gyroscope.setFrequency s f).1 = .out_of_range "frequency out of range [0.5, 10]") ∧
    (¬ Double.InInterval (1 / 10) 100 f →
      (Accelerometer.setFrequency s f).1 =
        .out_of_range "frequency out of range [0.1, 100]") ∧
    (Accelerometer.setFrequency s lit_500).1 =
      .out_of_range "frequency out of range [0.1, 100]" ∧
    (Gyroscope.setFrequency s lit_500).1 =
      .out_of_range "frequency out of range [0.5, 10]" ∧
    Liskov.main.1.take 2 = [.str "frequency out of range [0.5, 10]", .endl] := by
  refine ⟨?_, ?_, ?_, ?_, ?_, ?_, ?_⟩
  · intro w hw
    rcases Variant.setFrequency_cases .gyroscope s f with ⟨h₁, _⟩ | h₂
    · rw [show Gyroscope.setFrequency s f = _ from h₁] at hw
      exact SetResult.noConfusion hw
    · rw [show Gyroscope.setFrequency s f = _ from h₂] at hw
      exact (SetResult.out_of_range.inj hw).symm
  · intro w hw
    rcases Variant.setFrequency_cases .accelerometer s f with ⟨h₁, _⟩ | h₂
    · rw [show Accelerometer.setFrequency s f = _ from h₁] at hw
      exact SetResult.noConfusion hw
    · rw [show Accelerometer.setFrequency s f = _ from h₂] at hw
      exact (SetResult.out_of_range.inj hw).symm
  · intro h
    rw [gyroscope_setFrequency_of_not_in s f h]
  · intro h
    rw [accelerometer_setFrequency_of_not_in s f
      (fun hc => h (Double.InInterval.mono (by norm_num) le_rfl hc))]
  · rw [accelerometer_setFrequency_of_not_in s _ lit_500_not_in_accelerometer]
  · rw [gyroscope_setFrequency_of_not_in s _ lit_500_not_in_gyroscope]
  · rw [Liskov.main_eq]; rfl

theorem lit_500_not_in_nominal : ¬ Double.InInterval (1 / 10) 100 lit_500 := by
  simp only [lit_500, Double.InInterval, Double.value_nonneg_eq]; norm_num

theorem Variant.out_of_range_message_witness :
    (Gyroscope.setFrequency .fresh lit_500).1 = .out_of_range "frequency out of range [0.5, 10]" ∧
    "frequency out of range [0.5, 10]" = "frequency out of range [0.5, 10]" ∧
    (Accelerometer.setFrequency .fresh lit_500).1 =
      .out_of_range "frequency out of range [0.1, 100]" ∧
    "frequency out of range [0.1, 100]" = "frequency out of range [0.1, 100]" :=
  ⟨(Variant.out_of_range_message .fresh lit_500).2.2.1 lit_500_not_in_gyroscope,
    (Variant.out_of_range_message .fresh lit_500).1 _
      ((Variant.out_of_range_message .fresh lit_500).2.2.1 lit_500_not_in_gyroscope),
    (Variant.out_of_range_message .fresh lit_500).2.2.2.1 lit_500_not_in_nominal,
    (Variant.out_of_range_message .fresh lit_500).2.1 _
      ((Variant.out_of_range_message .fresh lit_500).2.2.2.1 lit_500_not_in_nominal)⟩

/-- C8: in every object state, a freshly constructed one included,
`getOrientation()` returns an integer of `[0, 360)` for Gyroscope and of
`[-180, 180)` for Accelerometer, and the call leaves the object as it was. -/
theorem Variant.getOrientation_in_domain (s : InertialMeasurementUnit) :
    (0 ≤ Gyroscope.getOrientation s ∧ Gyroscope.getOrientation s < 360) ∧
    (-180 ≤ Accelerometer.getOrientation s ∧ Accelerometer.getOrientation s < 180) ∧
    (0 ≤ Gyroscope.getOrientation .fresh ∧ Gyroscope.getOrientation .fresh < 360) ∧
    (-180 ≤ Accelerometer.getOrientation .fresh ∧
      Accelerometer.getOrientation .fresh < 180) ∧
    (Variant.gyroscope.call s .getOrientation = (.int (Gyroscope.getOrientation s), s)) ∧
    (Variant.accelerometer.call s .getOrientation =
      (.int (Accelerometer.getOrientation s), s)) := by
  refine ⟨⟨?_, ?_⟩, ⟨?_, ?_⟩, ⟨?_, ?_⟩, ⟨?_, ?_⟩, rfl, rfl⟩ <;>
    simp [Gyroscope.getOrientation, Accelerometer.getOrientation]

/-- C10: for each class, every prior object state and every double `f`, the
`BAD_CODE` `setFrequency(f)` returns `true` exactly when the good one returns
normally, returns `false` exactly when the good one throws `std::out_of_range`,
and both leave the same object behind. -/
theorem Variant.bad_setFrequency_agrees (v : Variant) (s : InertialMeasurementUnit) (f : Double) :
    ((Bad.setFrequency v s f).1 = true ↔ (v.setFrequency s f).1 = .returned) ∧
    ((Bad.setFrequency v s f).1 = false ↔ ∃ w, (v.setFrequency s f).1 = .out_of_range w) ∧
    (Bad.setFrequency v s f).2 = (v.setFrequency s f).2 := by
  cases v
  · show ((Bad.Gyroscope.setFrequency s f).1 = true ↔ (Gyroscope.setFrequency s f).1 = _) ∧
      ((Bad.Gyroscope.setFrequency s f).1 = false ↔
        ∃ w, (Gyroscope.setFrequency s f).1 = .out_of_range w) ∧
      (Bad.Gyroscope.setFrequency s f).2 = (Gyroscope.setFrequency s f).2
    unfold Bad.Gyroscope.setFrequency Gyroscope.setFrequency
    rw [show Bad.Gyroscope.min = Gyroscope.min from rfl,
      show Bad.Gyroscope.max = Gyroscope.max from rfl]
    by_cases h : (Double.ge f Gyroscope.min && Double.le f Gyroscope.max) = true
    · rw [if_pos h, if_pos h]
      exact ⟨iff_of_true rfl rfl,
        iff_of_false Bool.noConfusion (fun ⟨_, hw⟩ => SetResult.noConfusion hw), rfl⟩
    · rw [if_neg h, if_neg h]
      exact ⟨iff_of_false Bool.noConfusion (fun hw => SetResult.noConfusion hw),
        iff_of_true rfl ⟨_, rfl⟩, rfl⟩
  · show ((Bad.Accelerometer.setFrequency s f).1 = true ↔
        (Accelerometer.setFrequency s f).1 = _) ∧
      ((Bad.Accelerometer.setFrequency s f).1 = false ↔
        ∃ w, (Accelerometer.setFrequency s f).1 = .out_of_range w) ∧
      (Bad.Accelerometer.setFrequency s f).2 = (Accelerometer.setFrequency s f).2
    unfold Bad.Accelerometer.setFrequency Accelerometer.setFrequency
    rw [show Bad.Accelerometer.min = Accelerometer.min from rfl,
      show Bad.Accelerometer.max = Accelerometer.max from rfl]
    by_cases h : (Double.ge f Accelerometer.min && Double.le f Accelerometer.max) = true
    · rw [if_pos h, if_pos h]
      exact ⟨iff_of_true rfl rfl,
        iff_of_false Bool.noConfusion (fun ⟨_, hw⟩ => SetResult.noConfusion hw), rfl⟩
    · rw [if_neg h, if_neg h]
      exact ⟨iff_of_false Bool.noConfusion (fun hw => SetResult.noConfusion hw),
        iff_of_true rfl ⟨_, rfl⟩, rfl⟩

/-! ## Claims on the single-responsibility example -/

theorem kPrefix_eq : kPrefix = ['u', 's', 'e', 'r', '-'] := by decide

theorem CppString.head_of_rfind0_kPrefix (x : CppString)
    (h : CppString.rfind0 x kPrefix = true) : ∃ t, x = 'u' :: t := by
  unfold CppString.rfind0 at h
  rw [kPrefix_eq] at h
  cases x with
  | nil => simp [List.isPrefixOf] at h
  | cons c t =>
    simp only [List.isPrefixOf, Bool.and_eq_true, beq_iff_eq] at h
    exact ⟨t, by rw [← h.1]⟩

/-- A string that begins with `kPrefix` is not taken for a query: `operator<<`
appends it to the table. -/
theorem Database.shl_of_rfind0_kPrefix (db : Database) (x : CppString)
    (h : CppString.rfind0 x kPrefix = true) :
    db.shl x = ⟨db.table_users ++ [x]⟩ := by
  obtain ⟨t, rfl⟩ := CppString.head_of_rfind0_kPrefix x h
  have h₁ : CppString.rfind0 ('u' :: t) "INSERT".toList = false := by
    simp [CppString.rfind0, List.isPrefixOf]
  have h₂ : CppString.rfind0 ('u' :: t) "SELECT".toList = false := by
    simp [CppString.rfind0, List.isPrefixOf]
  have h₃ : CppString.rfind0 ('u' :: t) "UPDATE".toList = false := by
    simp [CppString.rfind0, List.isPrefixOf]
  unfold Database.shl
  rw [h₁, h₂, h₃]
  rfl

theorem UsernameFormater.rfind0_format (u : CppString) :
    CppString.rfind0 (UsernameFormater.format u) kPrefix = true := by
  unfold UsernameFormater.format
  cases h : CppString.rfind0 u kPrefix
  · simp [CppString.rfind0]
  · simpa using h

theorem UsernameFormater.getReadableName_format (u : CppString) :
    UsernameFormater.getReadableName (UsernameFormater.format u) =
      if CppString.rfind0 u kPrefix then u.drop 5 else u := by
  unfold UsernameFormater.format UsernameFormater.getReadableName
  cases h : CppString.rfind0 u kPrefix
  · simp [kPrefix_eq]
  · simp [kPrefix_eq]

theorem UserManager.createUser_eq (db : Database) (u : CppString) :
    UserManager.createUser db u = ⟨db.table_users ++ [UsernameFormater.format u]⟩ := by
  unfold UserManager.createUser UserModel.addUser
  have h : db.shl "INSERT INTO USERS (name) VALUES (?);".toList = db := by
    unfold Database.shl
    rw [show CppString.rfind0 "INSERT INTO USERS (name) VALUES (?);".toList
      "INSERT".toList = true by decide]
    rfl
  rw [h, Database.shl_of_rfind0_kPrefix _ _ (UsernameFormater.rfind0_format u)]

theorem UserManager.createAll_table (us : List CppString) :
    ∀ db : Database, (UserManager.createAll db us).table_users =
      db.table_users ++ us.map UsernameFormater.format := by
  induction us with
  | nil => intro db; simp [UserManager.createAll]
  | cons u us ih =>
    intro db
    show (UserManager.createAll (UserManager.createUser db u) us).table_users = _
    rw [ih (UserManager.createUser db u), UserManager.createUser_eq]
    simp

theorem foldl_snoc_map {α β : Type} (g : α → β) (l : List α) :
    ∀ init : List β, l.foldl (fun acc x => acc ++ [g x]) init = init ++ l.map g := by
  induction l with
  | nil => intro init; simp
  | cons a l ih => intro init; simp [ih]

theorem UserManager.getUsersReport_eq (db : Database) :
    UserManager.getUsersReport db =
      (db.table_users.map UsernameFormater.getReadableName, db) := by
  unfold UserManager.getUsersReport UserModel.getAllUsers
  have h : db.shl "SELECT name FROM users".toList = db := by
    unfold Database.shl
    rw [show CppString.rfind0 "SELECT name FROM users".toList "SELECT".toList = true
      by decide]
    simp
  rw [h]
  simp [Database.shr, foldl_snoc_map]

/-- C9: for every list `us` of usernames, after `createUser(u)` for each `u` of
`us` in order on an empty database, the table holds one row per name, in order:
`u` itself when `u` begins with `user-`, otherwise `user-` followed by `u`.
`getUsersReport()` leaves the table as it is and returns one entry per name, in
order: `u` without its first 5 characters when `u` begins with `user-`,
otherwise `u`.  In `main`, `user1` and `user-user2` are reported as `user1` and
`user2`. -/
theorem UserManager.report_after_createAll (us : List CppString) :
    (UserManager.createAll ⟨[]⟩ us).table_users =
      us.map (fun u => if CppString.rfind0 u kPrefix then u else kPrefix ++ u) ∧
    (UserManager.createAll ⟨[]⟩ us).table_users.length = us.length ∧
    (UserManager.getUsersReport (UserManager.createAll ⟨[]⟩ us)).2 =
      UserManager.createAll ⟨[]⟩ us ∧
    (UserManager.getUsersReport (UserManager.createAll ⟨[]⟩ us)).1 =
      us.map (fun u => if CppString.rfind0 u kPrefix then u.drop 5 else u) ∧
    (UserManager.getUsersReport (UserManager.createAll ⟨[]⟩ us)).1.length = us.length ∧
    (UserManager.getUsersReport
      (UserManager.createAll ⟨[]⟩ ["user1".toList, "user-user2".toList])).1 =
      ["user1".toList, "user2".toList] ∧
    SingleResponsability.main.1 = "printing:\nuser1\nuser2\n".toList := by
  have ht : (UserManager.createAll ⟨[]⟩ us).table_users =
      us.map UsernameFormater.format := by
    rw [UserManager.createAll_table]; rfl
  have hr : (UserManager.getUsersReport (UserManager.createAll ⟨[]⟩ us)).1 =
      us.map (fun u => if CppString.rfind0 u kPrefix then u.drop 5 else u) := by
    rw [UserManager.getUsersReport_eq, ht, List.map_map]
    exact List.map_congr_left (fun u _ => UsernameFormater.getReadableName_format u)
  refine ⟨?_, ?_, ?_, hr, ?_, by decide, by decide⟩
  · rw [ht]
    apply List.map_congr_left
    intro u _
    unfold UsernameFormater.format
    cases CppString.rfind0 u kPrefix <;> rfl
  · rw [ht, List.length_map]
  · rw [UserManager.getUsersReport_eq]
  · rw [hr, List.length_map]
